import Mathlib

/-!
Verification of the Todo_Hackathon frontend against its specification.

This file gives a shallow embedding, in Lean, of the frontend components of
the task-tracking web application (the task create/edit form, the task list,
the shared HTTP client, the dashboard mutation handlers, the task item delete
control, the authentication check, and the chat send handler), translated
directly from the TypeScript sources, and proves or refutes the stated
properties about them.

Conventions of the embedding:
- JavaScript strings are Lean String values; String.prototype.trim is
  modelled by jsTrim below (strip leading and trailing whitespace).
- JavaScript truthiness on strings (empty string is falsy) and on nullable
  numbers (null and 0 are falsy) is modelled explicitly where the code
  relies on it.
- React state updates inside one handler are composed into a single pure
  state-transition function; the response of an awaited network call is an
  explicit parameter (success or failure outcome), so one evaluation of the
  function is one complete run of the handler.
- React runs effects after a render commits, so a component whose body
  returns its markup unconditionally renders that markup on mount even when
  an effect issued during that mount later navigates away.
-/

/-- Whitespace predicate used to model the JavaScript trim semantics. -/
def jsWhitespace (c : Char) : Bool := c.isWhitespace

/-- Model of JavaScript String.prototype.trim: remove leading and trailing
whitespace characters. -/
def jsTrim (s : String) : String :=
  String.mk (((s.data.dropWhile jsWhitespace).reverse.dropWhile jsWhitespace).reverse)

/-- Dropping twice with the same predicate is the same as dropping once. -/
theorem dropWhile_dropWhile (p : Char → Bool) (l : List Char) :
    (l.dropWhile p).dropWhile p = l.dropWhile p := by
  induction l with
  | nil => rfl
  | cons a t ih =>
    by_cases h : p a = true
    · simp [List.dropWhile_cons, h, ih]
    · simp [List.dropWhile_cons, h]

/-- When the result of dropWhile is nonempty, its head fails the predicate. -/
theorem dropWhile_head_false (p : Char → Bool) :
    ∀ (l : List Char) (a : Char) (t : List Char), l.dropWhile p = a :: t → p a = false := by
  intro l
  induction l with
  | nil => intro a t h; simp [List.dropWhile] at h
  | cons b u ih =>
    intro a t h
    by_cases hb : p b = true
    · exact ih a t (by simpa [List.dropWhile_cons, hb] using h)
    · rw [List.dropWhile_cons] at h
      simp only [hb] at h
      simp only [Bool.false_eq_true, if_false, List.cons.injEq] at h
      rw [← h.1]
      exact Bool.not_eq_true (p b) ▸ hb

/-- All elements of the dropWhile remainder satisfy the predicate exactly
when all the elements of the list do. -/
theorem all_dropWhile_iff (p : Char → Bool) (l : List Char) :
    (l.dropWhile p).all p = l.all p := by
  induction l with
  | nil => rfl
  | cons a t ih =>
    by_cases h : p a = true
    · simp [List.dropWhile_cons, h, ih]
    · simp [List.dropWhile_cons, h]

/-- Characterization of a trim-to-empty string: the trimmed string is empty
exactly when every character of the input is whitespace. -/
theorem jsTrim_eq_empty_iff (s : String) :
    jsTrim s = "" ↔ s.data.all jsWhitespace = true := by
  unfold jsTrim
  rw [show (String.mk ((((s.data.dropWhile jsWhitespace)).reverse.dropWhile jsWhitespace).reverse) = "") ↔
      ((((s.data.dropWhile jsWhitespace)).reverse.dropWhile jsWhitespace).reverse = ([] : List Char))
    from by simp [String.ext_iff]]
  rw [List.reverse_eq_nil_iff, List.dropWhile_eq_nil_iff]
  constructor
  · intro h
    have h1 : (s.data.dropWhile jsWhitespace).reverse.all jsWhitespace = true := by
      rw [List.all_eq_true]; exact h
    have h2 : (s.data.dropWhile jsWhitespace).all jsWhitespace = true := by
      rwa [List.all_reverse] at h1
    rw [all_dropWhile_iff] at h2
    exact h2
  · intro h
    have h2 : (s.data.dropWhile jsWhitespace).all jsWhitespace = true := by
      rw [all_dropWhile_iff]; exact h
    have h1 : (s.data.dropWhile jsWhitespace).reverse.all jsWhitespace = true := by
      rwa [List.all_reverse]
    rw [List.all_eq_true] at h1
    exact h1

/-- A nonempty trimmed string is not whitespace-only: its characters do not
all satisfy the whitespace predicate. -/
theorem jsTrim_not_blank (s : String) (h : jsTrim s ≠ "") :
    (jsTrim s).data.all jsWhitespace = false := by
  cases hcase : (jsTrim s).data.all jsWhitespace with
  | false => rfl
  | true =>
    exfalso
    apply h
    -- every character of the trimmed string is whitespace; show the trim is empty
    unfold jsTrim at hcase ⊢
    set y := s.data.dropWhile jsWhitespace with hy
    have hz : ((y.reverse.dropWhile jsWhitespace).reverse).all jsWhitespace = true := hcase
    have hzall : (y.reverse.dropWhile jsWhitespace).all jsWhitespace = true := by
      rwa [List.all_reverse] at hz
    have hyrev : y.reverse.all jsWhitespace = true := by
      rw [← List.takeWhile_append_dropWhile jsWhitespace y.reverse, List.all_append]
      have htw : (y.reverse.takeWhile jsWhitespace).all jsWhitespace = true := by
        rw [List.all_eq_true]
        intro x hx
        exact List.mem_takeWhile_imp hx
      rw [htw, hzall]
      rfl
    have hyall : y.all jsWhitespace = true := by rwa [List.all_reverse] at hyrev
    -- but the head of y, when y is nonempty, fails the whitespace predicate
    cases hycase : y with
    | nil => simp [hycase]
    | cons a t =>
      exfalso
      have hhead : jsWhitespace a = false :=
        dropWhile_head_false jsWhitespace s.data a t (by rw [← hy]; exact hycase)
      rw [hycase, List.all_cons, Bool.and_eq_true] at hyall
      rw [hyall.1] at hhead
      exact Bool.true_eq_false.mp hhead

/-! ## Task form (frontend/src/components/TaskForm.tsx)

The create/edit modal validates the title and description fields and, on
success, builds the payload handed to the create or update operation. -/

/-- Payload handed to the create or update operation by the task form. -/
structure TaskPayload where
  title : String
  description : Option String
deriving Repr, DecidableEq

/-- Outcome of one submission of the task form: either an inline error is
shown and no operation is invoked, or the operation is invoked with the
constructed payload. -/
inductive FormResult where
  | formError (msg : String)
  | submitted (payload : TaskPayload)
deriving Repr, DecidableEq

namespace TaskForm

/-- Embedding of TaskForm.handleSubmit: the validation guards and payload
construction, in source order. An error return models showing the inline
error without calling onSubmit; a submitted return models calling onSubmit
with the payload. -/
def handleSubmit (title description : String) : FormResult :=
  if jsTrim title = "" then
    .formError "Title is required"
  else if title.length > 500 then
    .formError "Title must be 500 characters or less"
  else if description.length > 5000 then
    .formError "Description must be 5000 characters or less"
  else
    .submitted
      { title := jsTrim title
        description := if jsTrim description = "" then none else some (jsTrim description) }

end TaskForm

/-- Concrete 500-character title used as a boundary witness. -/
def title500 : String := String.mk (List.replicate 500 'a')

namespace Todo

/-! ## Task data model (frontend/src/types/task.ts, spec data model)

A task as the frontend receives it from the API: integer identifier, title,
optional description, completion flag, and the two timestamps. The name
Task is qualified by the Todo namespace because the bare name is taken by
the core library. -/

/-- Task record as handled by the frontend components. -/
structure Task where
  id : Nat
  title : String
  description : Option String
  completed : Bool
  created_at : String
  updated_at : String
deriving Repr, DecidableEq

/-! ## Task list (frontend/src/components/TaskList.tsx) -/

/-- Rendered shape of the task list component: the loading indicator, the
empty-state illustration, or the two groups, each carrying the count shown
in its badge. -/
inductive TaskListView where
  | loadingView
  | emptyState
  | groups (active : List Task) (activeBadge : Nat)
      (completedGroup : List Task) (completedBadge : Nat)
deriving Repr, DecidableEq

namespace TaskList

/-- Embedding of the TaskList component body: the loading early return, the
zero-length early return with the empty state, and otherwise the partition
into incomplete tasks (Active Tasks group, badge = its length) followed by
completed tasks (Completed Tasks group, badge = its length). -/
def render (loading : Bool) (tasks : List Task) : TaskListView :=
  if loading then .loadingView
  else if tasks.length = 0 then .emptyState
  else
    .groups (tasks.filter fun t => !t.completed) (tasks.filter fun t => !t.completed).length
      (tasks.filter fun t => t.completed) (tasks.filter fun t => t.completed).length

end TaskList

/-! ## Dashboard mutation handlers (frontend/src/app/dashboard/page.tsx)

Each handler updates the in-memory task list from the object returned by the
server for that one mutation; the type of each function shows that only the
previous list and the returned object are consulted, never a re-fetch. -/

namespace DashboardPage

/-- Embedding of handleCreateTask: prepend the task returned by the server. -/
def handleCreateTask (tasks : List Task) (newTask : Task) : List Task :=
  newTask :: tasks

/-- Embedding of handleUpdateTask: map over the list replacing the entries
whose id equals the returned task id. -/
def handleUpdateTask (tasks : List Task) (updatedTask : Task) : List Task :=
  tasks.map fun t => if t.id = updatedTask.id then updatedTask else t

/-- Embedding of handleToggleComplete: same replacement by id with the task
returned by the toggle endpoint. -/
def handleToggleComplete (tasks : List Task) (updatedTask : Task) : List Task :=
  tasks.map fun t => if t.id = updatedTask.id then updatedTask else t

/-- Embedding of handleDeleteTask: keep the entries whose id differs from
the deleted id. -/
def handleDeleteTask (tasks : List Task) (taskId : Nat) : List Task :=
  tasks.filter fun t => t.id != taskId

end DashboardPage

/-! ## Task item delete control (frontend/src/components/TaskItem.tsx) -/

namespace TaskItem

/-- Embedding of TaskItem.handleDelete composed with the dashboard delete
handler it invokes through onDelete: the browser confirmation result is an
explicit input; the first component lists the delete calls issued, the
second the resulting task list. Declining the prompt returns early: no
call, list untouched. -/
def handleDelete (confirmed : Bool) (task : Task) (tasks : List Task) :
    List Nat × List Task :=
  if confirmed then ([task.id], DashboardPage.handleDeleteTask tasks task.id)
  else ([], tasks)

end TaskItem

/-! ## Shared HTTP client (frontend/src/lib/api.ts) -/

/-- Fields the client reads off a parsed non-2xx response body, each absent
when the body lacks the field or the body failed to parse (the catch
fallback to an empty object). The errorField component models the error
field of the documented error body shape; the client itself never reads
it. -/
structure ErrorBody where
  detail : Option String
  message : Option String
  errorField : Option String
deriving Repr, DecidableEq

/-- Model of one HTTP response as the client consumes it: the status code,
the parse result of the success-path response body, and the fields of the
error-path body. -/
structure HttpResponse (A : Type) where
  status : Nat
  jsonBody : Except String A
  errBody : ErrorBody

/-- Result of one request through the client: the empty success produced for
a 204, a parsed success value, or a thrown Error carrying a message. -/
inductive RequestResult (A : Type) where
  | emptySuccess
  | success (data : A)
  | thrown (msg : String)
deriving Repr, DecidableEq

/-- Model of response.ok: status in the 2xx range. -/
def responseOk (status : Nat) : Bool :=
  decide (200 ≤ status) && decide (status ≤ 299)

/-- Model of the JavaScript string fallback a-or-else-b, where both the
absent value and the empty string are falsy. -/
def jsOrString (a : Option String) (b : String) : String :=
  match a with
  | some s => if s = "" then b else s
  | none => b

namespace ApiClient

/-- Embedding of the error-message selection on a non-2xx response:
data.detail, else data.message, else the fixed HTTP-status text. -/
def errorMessage (body : ErrorBody) (status : Nat) : String :=
  jsOrString body.detail
    (jsOrString body.message ("HTTP error! status: " ++ toString status))

/-- Embedding of the headers block of ApiClient.request: the JSON content
type always, plus the Authorization bearer header when a token is supplied.
Call sites pass no extra headers. -/
def mkHeaders (token : Option String) : List (String × String) :=
  ("Content-Type", "application/json") ::
    (match token with
     | some t => [("Authorization", "Bearer " ++ t)]
     | none => [])

/-- Embedding of the response handling of ApiClient.request: 204 returns the
empty success; any other non-ok status throws the selected error message; an
ok status returns the parsed body, or rethrows the parse failure. -/
def handleResponse {A : Type} (resp : HttpResponse A) : RequestResult A :=
  if resp.status = 204 then .emptySuccess
  else if responseOk resp.status = false then
    .thrown (errorMessage resp.errBody resp.status)
  else
    match resp.jsonBody with
    | .ok data => .success data
    | .error msg => .thrown msg

end ApiClient

/-- Modelled from the spec: the server message of a non-2xx response body,
per the documented error body shape, which is an error field with optional
details, or, for validation and auth failures, a message field. -/
def specServerMessage (body : ErrorBody) : Option String :=
  match body.errorField with
  | some e => some e
  | none => body.message

end Todo

namespace Todo

/-! ## Token storage and authentication check (frontend/src/lib/auth.ts,
frontend/src/services/auth.ts) -/

/-- Browser-local persistent storage as the auth code reads it: the value
stored under the auth_token key, absent when the key was never set. -/
structure BrowserStorage where
  auth_token : Option String
deriving Repr, DecidableEq

/-- Embedding of tokenStorage.getToken: read the auth_token key. -/
def tokenStorageGetToken (st : BrowserStorage) : Option String :=
  st.auth_token

namespace AuthService

/-- Embedding of AuthService.isAuthenticated: double negation of getToken,
so the check is mere presence of a non-empty stored string; no signature or
expiry verification happens on the client. -/
def isAuthenticated (st : BrowserStorage) : Bool :=
  match tokenStorageGetToken st with
  | none => false
  | some t => t != ""

end AuthService

/-- Outcome of mounting a page component: whether the protected markup is
rendered by the mount, and the navigation target the mount issues, if any. -/
structure MountResult where
  contentRendered : Bool
  redirect : Option String
deriving Repr, DecidableEq

namespace ChatPage

/-- Embedding of the chat page mount (app/chat/page.tsx): the component
body returns the chat UI unconditionally, and the authentication check
lives in an effect, which runs after that first render commits and pushes
the sign-in route when the check fails. -/
def mount (st : BrowserStorage) : MountResult :=
  { contentRendered := true
    redirect := if AuthService.isAuthenticated st then none else some "/signin" }

end ChatPage

namespace AuthGuard

/-- Modelled from the spec: the AuthGuard component
(frontend/src/components/AuthGuard.tsx) wrapping the dashboard is imported
by the dashboard page but its source file is absent from the snapshot; per
the spec it checks for a stored token before rendering protected content and
redirects to sign-in otherwise. -/
def render (st : BrowserStorage) : MountResult :=
  { contentRendered := AuthService.isAuthenticated st
    redirect := if AuthService.isAuthenticated st then none else some "/signin" }

end AuthGuard

/-! ## Chat send handlers (app/chat/page.tsx handleSendMessage and the
dashboard chat widget handleSendMessage in app/dashboard/page.tsx of the
chat phase) -/

/-- One chat bubble of the transcript. -/
structure ChatMessage where
  role : String
  content : String
deriving Repr, DecidableEq

/-- Body of one POST to the chat endpoint. -/
structure ChatRequest where
  conversation_id : Option Nat
  message : String
deriving Repr, DecidableEq

/-- Local state of a chat surface: ordered transcript, pending input text,
active conversation id, in-flight flag, and last error. -/
structure ChatState where
  messages : List ChatMessage
  input : String
  conversationId : Option Nat
  loading : Bool
  errorMsg : Option String
deriving Repr, DecidableEq

/-- Result of the awaited chat network call, supplied to the handler as an
explicit parameter. -/
inductive ChatOutcome where
  | success (conversation_id : Nat) (response : String)
  | failure (msg : String)
deriving Repr, DecidableEq

/-- JavaScript falsiness of a nullable numeric conversation id: null and 0
are falsy. -/
def jsFalsyId : Option Nat → Bool
  | none => true
  | some n => n == 0

namespace ChatPage

/-- Embedding of ChatPage.handleSendMessage: the guard returns with nothing
sent when the trimmed input is empty or a request is in flight; otherwise
the input is cleared, the error reset, the user message appended
optimistically and the request issued; on success the conversation id is
recorded when the page had none and the assistant reply is appended; on
failure the error is set and the optimistic message dropped; loading ends
false either way. The second component is the request issued, if any. -/
def handleSendMessage (s : ChatState) (outcome : ChatOutcome) :
    ChatState × Option ChatRequest :=
  if jsTrim s.input = "" ∨ s.loading = true then (s, none)
  else
    let userMessage := jsTrim s.input
    let req : ChatRequest := { conversation_id := s.conversationId, message := userMessage }
    let s1 : ChatState :=
      { s with
        input := ""
        errorMsg := none
        messages := s.messages ++ [{ role := "user", content := userMessage }]
        loading := true }
    match outcome with
    | .success cid resp =>
      ({ s1 with
          conversationId := if jsFalsyId s.conversationId then some cid else s.conversationId
          messages := s1.messages ++ [{ role := "assistant", content := resp }]
          loading := false }, some req)
    | .failure msg =>
      ({ s1 with
          errorMsg := some msg
          messages := s1.messages.dropLast
          loading := false }, some req)

end ChatPage

namespace DashboardPage

/-- Embedding of the dashboard chat widget handleSendMessage: identical
shape to the chat page handler, and additionally triggers a task list
refresh (the third component) after a successful turn only. -/
def handleSendMessage (s : ChatState) (outcome : ChatOutcome) :
    ChatState × Option ChatRequest × Bool :=
  if jsTrim s.input = "" ∨ s.loading = true then (s, none, false)
  else
    let userMessage := jsTrim s.input
    let req : ChatRequest := { conversation_id := s.conversationId, message := userMessage }
    let s1 : ChatState :=
      { s with
        input := ""
        errorMsg := none
        messages := s.messages ++ [{ role := "user", content := userMessage }]
        loading := true }
    match outcome with
    | .success cid resp =>
      ({ s1 with
          conversationId := if jsFalsyId s.conversationId then some cid else s.conversationId
          messages := s1.messages ++ [{ role := "assistant", content := resp }]
          loading := false }, some req, true)
    | .failure msg =>
      ({ s1 with
          errorMsg := some msg
          messages := s1.messages.dropLast
          loading := false }, some req, false)

end DashboardPage

end Todo

namespace Todo

/-- Sample incomplete task used by concrete witnesses. -/
def task1 : Task :=
  { id := 1, title := "Buy milk", description := none
    completed := false, created_at := "2026-01-01", updated_at := "2026-01-01" }

/-- Sample completed task used by concrete witnesses. -/
def task2 : Task :=
  { id := 2, title := "Ship report", description := some "by Friday"
    completed := true, created_at := "2026-01-01", updated_at := "2026-01-02" }

/-- C1: a submission whose title trims to empty, or whose title exceeds 500
characters, or whose description exceeds 5000 characters, produces an
inline form error and never invokes the create or update operation; and a
submission whose title is exactly 500 characters (and does not trim to
empty, which the empty-title clause of the claim already excludes) with a
description of at most 5000 characters passes validation and invokes the
operation. -/
theorem C1_task_form_validation (title description : String) :
    ((jsTrim title = "" ∨ title.length > 500 ∨ description.length > 5000) →
      ∃ msg, TaskForm.handleSubmit title description = .formError msg) ∧
    (jsTrim title ≠ "" → title.length = 500 → description.length ≤ 5000 →
      ∃ payload, TaskForm.handleSubmit title description = .submitted payload) := by
  constructor
  · intro h
    unfold TaskForm.handleSubmit
    by_cases h1 : jsTrim title = ""
    · exact ⟨_, by rw [if_pos h1]⟩
    · by_cases h2 : title.length > 500
      · exact ⟨_, by rw [if_neg h1, if_pos h2]⟩
      · have h3 : description.length > 5000 := by
          rcases h with h | h | h
          · exact absurd h h1
          · exact absurd h h2
          · exact h
        exact ⟨_, by rw [if_neg h1, if_neg h2, if_pos h3]⟩
  · intro h1 h2 h3
    have hn2 : ¬ title.length > 500 := by omega
    have hn3 : ¬ description.length > 5000 := by omega
    exact ⟨_, by unfold TaskForm.handleSubmit; rw [if_neg h1, if_neg hn2, if_neg hn3]⟩

set_option maxRecDepth 8000 in
/-- C1 witness: the concrete 500-character title passes validation with an
empty description and the operation is invoked. -/
theorem C1_task_form_validation_witness :
    jsTrim title500 ≠ "" ∧ title500.length = 500 ∧ ("" : String).length ≤ 5000 ∧
    ∃ payload, TaskForm.handleSubmit title500 "" = .submitted payload :=
  ⟨by decide, by decide, by decide,
    (C1_task_form_validation title500 "").2 (by decide) (by decide) (by decide)⟩

/-- C10: whenever the task form invokes the operation, the payload title is
the trimmed input title, the payload description is absent when the trimmed
description is empty and the trimmed description otherwise, and an empty
string is never sent as the description. -/
theorem C10_task_form_payload (title description : String) (p : TaskPayload)
    (h : TaskForm.handleSubmit title description = .submitted p) :
    p.title = jsTrim title ∧
    (jsTrim description = "" → p.description = none) ∧
    (jsTrim description ≠ "" → p.description = some (jsTrim description)) ∧
    p.description ≠ some "" := by
  unfold TaskForm.handleSubmit at h
  split_ifs at h with h1 h2 h3 h4
  · simp only [FormResult.submitted.injEq] at h
    subst h
    exact ⟨rfl, fun _ => rfl, fun hd => absurd h4 hd, by simp⟩
  · simp only [FormResult.submitted.injEq] at h
    subst h
    exact ⟨rfl, fun hd => absurd hd h4, fun _ => rfl, by simpa using h4⟩

/-- C10 witness: a concrete submission whose description trims to empty
carries no description field rather than an empty string. -/
theorem C10_task_form_payload_witness :
    TaskForm.handleSubmit "  hi  " "   " = .submitted { title := "hi", description := none } ∧
    ({ title := "hi", description := none } : TaskPayload).description ≠ some "" :=
  ⟨by decide,
    (C10_task_form_payload "  hi  " "   " { title := "hi", description := none }
      (by decide)).2.2.2⟩

/-- C2: rendering a nonempty task list yields the Active Tasks group
followed by the Completed Tasks group, where the active group is exactly
the tasks with completed false in input order, the completed group exactly
the tasks with completed true in input order, the badges are the group
sizes, the two groups together are a permutation of the input (every task
appears in exactly one group), and the empty list renders the empty state
instead. -/
theorem C2_task_list_partition (tasks : List Task) (h : tasks ≠ []) :
    (TaskList.render false tasks =
      .groups (tasks.filter fun t => !t.completed) (tasks.filter fun t => !t.completed).length
        (tasks.filter fun t => t.completed) (tasks.filter fun t => t.completed).length) ∧
    (∀ t, t ∈ tasks.filter (fun t => !t.completed) ↔ t ∈ tasks ∧ t.completed = false) ∧
    (∀ t, t ∈ tasks.filter (fun t => t.completed) ↔ t ∈ tasks ∧ t.completed = true) ∧
    List.Sublist (tasks.filter fun t => !t.completed) tasks ∧
    List.Sublist (tasks.filter fun t => t.completed) tasks ∧
    List.Perm ((tasks.filter fun t => !t.completed) ++ (tasks.filter fun t => t.completed))
      tasks ∧
    TaskList.render false [] = .emptyState := by
  refine ⟨?_, ?_, ?_, List.filter_sublist tasks, List.filter_sublist tasks, ?_, rfl⟩
  · unfold TaskList.render
    have h0 : ¬ tasks.length = 0 := by simpa [List.length_eq_zero] using h
    rw [if_neg (by simp : ¬ (false = true)), if_neg h0]
  · intro t; simp [List.mem_filter]
  · intro t; simp [List.mem_filter]
  · have hp := List.filter_append_perm (fun t => !t.completed) tasks
    simpa using hp

/-- C2 witness: a concrete two-task list renders as one active task with
badge 1 followed by one completed task with badge 1. -/
theorem C2_task_list_partition_witness :
    TaskList.render false [task1, task2] = .groups [task1] 1 [task2] 1 :=
  ((C2_task_list_partition [task1, task2] (by decide)).1).trans (by decide)

end Todo

namespace Todo

/-- Concrete non-2xx response whose body carries its message in the detail
field, as the backend emits it. -/
def resp404detail : HttpResponse Nat :=
  { status := 404, jsonBody := .error "no body"
    errBody := { detail := some "Task not found", message := none, errorField := none } }

/-- Concrete 204 response. -/
def resp204 : HttpResponse Nat :=
  { status := 204, jsonBody := .error "no body"
    errBody := { detail := none, message := none, errorField := none } }

/-- Concrete non-2xx response whose body follows the documented error shape
(an error field) with no detail and no message field. -/
def resp404errField : HttpResponse Nat :=
  { status := 404, jsonBody := .error "no body"
    errBody := { detail := none, message := none, errorField := some "Task not found" } }

/-- C3 counterexample: a non-2xx response whose body carries the server
message in the documented error field is thrown with the generic
HTTP-status text, not with the server message, so the claim that every
non-2xx response throws an Error carrying the server message from the
response body fails on this concrete response. -/
theorem C3_api_client_counterexample :
    responseOk resp404errField.status = false ∧
    specServerMessage resp404errField.errBody = some "Task not found" ∧
    ApiClient.handleResponse resp404errField =
      .thrown ("HTTP error! status: " ++ toString (404 : Nat)) ∧
    ("HTTP error! status: " ++ toString (404 : Nat)) ≠ "Task not found" :=
  ⟨by decide, rfl, rfl, by decide⟩

/-- C3 amended: a supplied token is attached as the Authorization Bearer
header and no such header exists without a token; a 204 response yields the
empty success; a non-2xx response throws an Error whose message is the
detail field of the parsed body when present and non-empty, else the
message field when present and non-empty, else the fixed HTTP-status text;
the error field of the documented error body shape is never consulted. -/
theorem C3_api_client_request {A : Type} (resp : HttpResponse A) (t : String) :
    (("Authorization", "Bearer " ++ t) ∈ ApiClient.mkHeaders (some t)) ∧
    (∀ hd, hd ∈ ApiClient.mkHeaders none → hd.1 ≠ "Authorization") ∧
    (resp.status = 204 → ApiClient.handleResponse resp = .emptySuccess) ∧
    (responseOk resp.status = false →
      ApiClient.handleResponse resp =
        .thrown (jsOrString resp.errBody.detail
          (jsOrString resp.errBody.message
            ("HTTP error! status: " ++ toString resp.status)))) ∧
    (∀ d, resp.errBody.detail = some d → d ≠ "" → responseOk resp.status = false →
      ApiClient.handleResponse resp = .thrown d) ∧
    (∀ m, (resp.errBody.detail = none ∨ resp.errBody.detail = some "") →
      resp.errBody.message = some m → m ≠ "" → responseOk resp.status = false →
      ApiClient.handleResponse resp = .thrown m) ∧
    ((resp.errBody.detail = none ∨ resp.errBody.detail = some "") →
      (resp.errBody.message = none ∨ resp.errBody.message = some "") →
      responseOk resp.status = false →
      ApiClient.handleResponse resp =
        .thrown ("HTTP error! status: " ++ toString resp.status)) := by
  have hok204 : ∀ st : Nat, responseOk st = false → st ≠ 204 := by
    intro st hst heq
    rw [heq] at hst
    simp [responseOk] at hst
  have hthrow : responseOk resp.status = false →
      ApiClient.handleResponse resp =
        .thrown (ApiClient.errorMessage resp.errBody resp.status) := by
    intro hst
    unfold ApiClient.handleResponse
    rw [if_neg (hok204 resp.status hst), if_pos hst]
  refine ⟨?_, ?_, ?_, ?_, ?_, ?_, ?_⟩
  · simp [ApiClient.mkHeaders]
  · intro hd hmem
    simp [ApiClient.mkHeaders] at hmem
    rw [hmem]
    decide
  · intro h204
    unfold ApiClient.handleResponse
    rw [if_pos h204]
  · intro hst
    exact hthrow hst
  · intro d hdet hdne hst
    rw [hthrow hst]
    unfold ApiClient.errorMessage
    rw [hdet]
    simp [jsOrString, hdne]
  · intro m hdet hmsg hmne hst
    rw [hthrow hst]
    unfold ApiClient.errorMessage
    rcases hdet with hdet | hdet <;>
      rw [hdet, hmsg] <;> simp [jsOrString, hmne]
  · intro hdet hmsg hst
    rw [hthrow hst]
    unfold ApiClient.errorMessage
    rcases hdet with hdet | hdet <;> rcases hmsg with hmsg | hmsg <;>
      rw [hdet, hmsg] <;> simp [jsOrString]

/-- C3 witness: the concrete 404 response whose detail field carries the
message is thrown with that message, and the concrete 204 response yields
the empty success. -/
theorem C3_api_client_request_witness :
    ApiClient.handleResponse resp404detail = .thrown "Task not found" ∧
    ApiClient.handleResponse resp204 = .emptySuccess :=
  ⟨(C3_api_client_request resp404detail "tk").2.2.2.2.1 "Task not found" rfl
      (by decide) (by decide),
    (C3_api_client_request resp204 "tk").2.2.1 rfl⟩

/-- C6: after each successful dashboard mutation the local list is updated
from the returned object alone: create prepends exactly the returned task;
update and toggle replace exactly the positions whose entry has the
returned id and keep every other position unchanged, preserving length;
delete removes exactly the entries with the deleted id, keeping the
remaining entries in order. -/
theorem C6_dashboard_local_state (tasks : List Task) (u : Task) (tid : Nat) :
    DashboardPage.handleCreateTask tasks u = u :: tasks ∧
    (DashboardPage.handleUpdateTask tasks u).length = tasks.length ∧
    (∀ (i : Nat) (t : Task), tasks[i]? = some t → t.id ≠ u.id →
      (DashboardPage.handleUpdateTask tasks u)[i]? = some t) ∧
    (∀ (i : Nat) (t : Task), tasks[i]? = some t → t.id = u.id →
      (DashboardPage.handleUpdateTask tasks u)[i]? = some u) ∧
    (DashboardPage.handleToggleComplete tasks u).length = tasks.length ∧
    (∀ (i : Nat) (t : Task), tasks[i]? = some t → t.id ≠ u.id →
      (DashboardPage.handleToggleComplete tasks u)[i]? = some t) ∧
    (∀ (i : Nat) (t : Task), tasks[i]? = some t → t.id = u.id →
      (DashboardPage.handleToggleComplete tasks u)[i]? = some u) ∧
    (∀ t, t ∈ DashboardPage.handleDeleteTask tasks tid ↔ t ∈ tasks ∧ t.id ≠ tid) ∧
    List.Sublist (DashboardPage.handleDeleteTask tasks tid) tasks := by
  refine ⟨rfl, List.length_map tasks _, ?_, ?_, List.length_map tasks _, ?_, ?_, ?_,
    List.filter_sublist tasks⟩
  · intro i t hi hne
    unfold DashboardPage.handleUpdateTask
    rw [List.getElem?_map, hi]
    simp [hne]
  · intro i t hi heq
    unfold DashboardPage.handleUpdateTask
    rw [List.getElem?_map, hi]
    simp [heq]
  · intro i t hi hne
    unfold DashboardPage.handleToggleComplete
    rw [List.getElem?_map, hi]
    simp [hne]
  · intro i t hi heq
    unfold DashboardPage.handleToggleComplete
    rw [List.getElem?_map, hi]
    simp [heq]
  · intro t
    unfold DashboardPage.handleDeleteTask
    simp [List.mem_filter]

/-- C6 witness: updating a concrete one-task list with a task of a
different id keeps the existing entry at its position. -/
theorem C6_dashboard_local_state_witness :
    (DashboardPage.handleUpdateTask [task1] task2)[0]? = some task1 :=
  (C6_dashboard_local_state [task1] task2 5).2.2.1 0 task1 (by decide) (by decide)

/-- C7: the delete operation is invoked only when the browser confirmation
prompt is accepted; if it is declined, no delete call is issued and the
task list is untouched; if it is accepted, exactly one delete call for the
task id is issued. -/
theorem C7_delete_requires_confirmation (confirmed : Bool) (task : Task)
    (tasks : List Task) :
    ((TaskItem.handleDelete confirmed task tasks).1 ≠ [] → confirmed = true) ∧
    (confirmed = false → TaskItem.handleDelete confirmed task tasks = ([], tasks)) ∧
    (confirmed = true →
      TaskItem.handleDelete confirmed task tasks =
        ([task.id], DashboardPage.handleDeleteTask tasks task.id)) := by
  cases confirmed <;> simp [TaskItem.handleDelete]

/-- C7 witness: declining the prompt on a concrete task leaves the list
unchanged and issues no delete call. -/
theorem C7_delete_requires_confirmation_witness :
    TaskItem.handleDelete false task1 [task1] = ([], [task1]) :=
  (C7_delete_requires_confirmation false task1 [task1]).2.1 rfl

end Todo

namespace Todo

/-- C8 counterexample: with no token in browser storage, mounting the chat
page still renders the protected chat content (the component body returns
it unconditionally; the authentication check lives in an effect that runs
after that render), so protected content is shown without any stored
token, and the sign-in redirect is issued only after the content has
rendered. -/
theorem C8_route_protection_counterexample :
    tokenStorageGetToken { auth_token := none } = none ∧
    AuthService.isAuthenticated { auth_token := none } = false ∧
    (ChatPage.mount { auth_token := none }).contentRendered = true ∧
    (ChatPage.mount { auth_token := none }).redirect = some "/signin" :=
  ⟨rfl, rfl, rfl, rfl⟩

/-- C8 amended: the dashboard guard (modelled from the spec, its source
being absent from the snapshot) renders protected content exactly when the
stored-token check passes; the chat page instead renders its content
unconditionally on mount and issues the sign-in redirect from an
after-render effect exactly when the check fails; and the check is
presence-only: it accepts any non-empty stored string without validating
it. -/
theorem C8_route_protection (st : BrowserStorage) :
    ((AuthGuard.render st).contentRendered = AuthService.isAuthenticated st) ∧
    ((AuthGuard.render st).redirect = some "/signin" ↔
      AuthService.isAuthenticated st = false) ∧
    ((ChatPage.mount st).contentRendered = true) ∧
    ((ChatPage.mount st).redirect = some "/signin" ↔
      AuthService.isAuthenticated st = false) ∧
    (AuthService.isAuthenticated st = true ↔
      ∃ t, st.auth_token = some t ∧ t ≠ "") := by
  refine ⟨rfl, ?_, rfl, ?_, ?_⟩
  · unfold AuthGuard.render
    cases hA : AuthService.isAuthenticated st <;> simp [hA]
  · unfold ChatPage.mount
    cases hA : AuthService.isAuthenticated st <;> simp [hA]
  · unfold AuthService.isAuthenticated tokenStorageGetToken
    cases htok : st.auth_token with
    | none => simp
    | some t => simp

/-- Concrete chat state with whitespace-only pending input. -/
def chatBlank : ChatState :=
  { messages := [], input := "   ", conversationId := none
    loading := false, errorMsg := none }

/-- Concrete idle chat state with a sendable pending input. -/
def chatReady : ChatState :=
  { messages := [], input := " hello ", conversationId := none
    loading := false, errorMsg := none }

/-- State after a successful send from chatReady. -/
def chatReadyAfter : ChatState :=
  { messages := [{ role := "user", content := "hello" },
      { role := "assistant", content := "done" }]
    input := "", conversationId := some 7, loading := false, errorMsg := none }

/-- Request issued by a send from chatReady. -/
def chatReadyReq : ChatRequest := { conversation_id := none, message := "hello" }

/-- C9: submitting the chat form with a whitespace-only input or while a
request is in flight is a no-op on both chat surfaces, issuing no request
and leaving the whole state (transcript, conversation id, input, error)
unchanged; and any request that is issued departs from a non-loading state
(so at most one request is in flight) and carries the trimmed input, which
is neither empty nor whitespace-only. -/
theorem C9_chat_send_guard (s : ChatState) (outcome : ChatOutcome) :
    ((jsTrim s.input = "" ∨ s.loading = true) →
      ChatPage.handleSendMessage s outcome = (s, none) ∧
      DashboardPage.handleSendMessage s outcome = (s, none, false)) ∧
    (∀ (s' : ChatState) (req : ChatRequest),
      ChatPage.handleSendMessage s outcome = (s', some req) →
      s.loading = false ∧ req.conversation_id = s.conversationId ∧
      req.message = jsTrim s.input ∧ req.message ≠ "" ∧
      req.message.data.all jsWhitespace = false) ∧
    (∀ (s' : ChatState) (req : ChatRequest) (refreshed : Bool),
      DashboardPage.handleSendMessage s outcome = (s', some req, refreshed) →
      s.loading = false ∧ req.message = jsTrim s.input ∧ req.message ≠ "" ∧
      req.message.data.all jsWhitespace = false) := by
  have hload_of : ∀ h : ¬ (jsTrim s.input = "" ∨ s.loading = true),
      jsTrim s.input ≠ "" ∧ s.loading = false := by
    intro h
    push_neg at h
    exact ⟨h.1, by cases hl : s.loading with
      | false => rfl
      | true => exact absurd hl h.2⟩
  refine ⟨?_, ?_, ?_⟩
  · intro h
    constructor
    · unfold ChatPage.handleSendMessage
      rw [if_pos h]
    · unfold DashboardPage.handleSendMessage
      rw [if_pos h]
  · intro s' req h
    unfold ChatPage.handleSendMessage at h
    by_cases hg : jsTrim s.input = "" ∨ s.loading = true
    · rw [if_pos hg] at h
      simp at h
    · rw [if_neg hg] at h
      obtain ⟨hne, hload⟩ := hload_of hg
      cases outcome with
      | success cid resp =>
        have hreq : req = { conversation_id := s.conversationId, message := jsTrim s.input } := by
          have h2 := congrArg Prod.snd h
          simp at h2
          exact h2.symm
        rw [hreq]
        exact ⟨hload, rfl, rfl, hne, jsTrim_not_blank s.input hne⟩
      | failure msg =>
        have hreq : req = { conversation_id := s.conversationId, message := jsTrim s.input } := by
          have h2 := congrArg Prod.snd h
          simp at h2
          exact h2.symm
        rw [hreq]
        exact ⟨hload, rfl, rfl, hne, jsTrim_not_blank s.input hne⟩
  · intro s' req refreshed h
    unfold DashboardPage.handleSendMessage at h
    by_cases hg : jsTrim s.input = "" ∨ s.loading = true
    · rw [if_pos hg] at h
      simp at h
    · rw [if_neg hg] at h
      obtain ⟨hne, hload⟩ := hload_of hg
      cases outcome with
      | success cid resp =>
        have hreq : req = { conversation_id := s.conversationId, message := jsTrim s.input } := by
          have h2 := congrArg (fun x => x.snd.fst) h
          simp at h2
          exact h2.symm
        rw [hreq]
        exact ⟨hload, rfl, hne, jsTrim_not_blank s.input hne⟩
      | failure msg =>
        have hreq : req = { conversation_id := s.conversationId, message := jsTrim s.input } := by
          have h2 := congrArg (fun x => x.snd.fst) h
          simp at h2
          exact h2.symm
        rw [hreq]
        exact ⟨hload, rfl, hne, jsTrim_not_blank s.input hne⟩

/-- C9 witness: a whitespace-only submission is a no-op on the concrete
blank state, and the concrete ready state issues a request carrying the
trimmed, non-empty message. -/
theorem C9_chat_send_guard_witness :
    ChatPage.handleSendMessage chatBlank (.failure "x") = (chatBlank, none) ∧
    chatReadyReq.message ≠ "" :=
  ⟨((C9_chat_send_guard chatBlank (.failure "x")).1 (Or.inl (by decide))).1,
    ((C9_chat_send_guard chatReady (.success 7 "done")).2.1 chatReadyAfter chatReadyReq
      (by decide)).2.2.2.1⟩

/-- C4 counterexample: on a failed send from a concrete state whose typed
input was the message text, the handler has cleared the input at send time
and does not restore it on failure, so the typed input is not preserved
for retry. -/
theorem C4_chat_failure_input_counterexample :
    (ChatPage.handleSendMessage
        { messages := [], input := "add milk", conversationId := none
          loading := false, errorMsg := none }
        (.failure "Network error")).1.input = "" ∧
    (ChatPage.handleSendMessage
        { messages := [], input := "add milk", conversationId := none
          loading := false, errorMsg := none }
        (.failure "Network error")).1.input ≠ "add milk" :=
  ⟨by decide, by decide⟩

/-- C4 amended: on a failed chat send, both chat surfaces remove the
optimistic user message (the transcript returns to its pre-send contents)
and show the failure as an inline error, but the typed input was cleared
when the send started and is not restored, so the input field is empty
after the failure rather than preserved. -/
theorem C4_chat_failure_rollback (s : ChatState) (msg : String)
    (hne : jsTrim s.input ≠ "") (hload : s.loading = false) :
    (ChatPage.handleSendMessage s (.failure msg)).1.messages = s.messages ∧
    (ChatPage.handleSendMessage s (.failure msg)).1.errorMsg = some msg ∧
    (ChatPage.handleSendMessage s (.failure msg)).1.input = "" ∧
    (ChatPage.handleSendMessage s (.failure msg)).2 =
      some { conversation_id := s.conversationId, message := jsTrim s.input } ∧
    (DashboardPage.handleSendMessage s (.failure msg)).1.messages = s.messages ∧
    (DashboardPage.handleSendMessage s (.failure msg)).1.errorMsg = some msg ∧
    (DashboardPage.handleSendMessage s (.failure msg)).1.input = "" ∧
    (DashboardPage.handleSendMessage s (.failure msg)).2.2 = false := by
  have hg : ¬ (jsTrim s.input = "" ∨ s.loading = true) := by
    push_neg
    exact ⟨hne, by rw [hload]; simp⟩
  unfold ChatPage.handleSendMessage DashboardPage.handleSendMessage
  rw [if_neg hg, if_neg hg]
  simp [List.dropLast_concat]

/-- C4 witness: the amended behavior on the concrete ready state. -/
theorem C4_chat_failure_rollback_witness :
    (ChatPage.handleSendMessage chatReady (.failure "boom")).1.messages = [] ∧
    (ChatPage.handleSendMessage chatReady (.failure "boom")).1.errorMsg = some "boom" :=
  ⟨(C4_chat_failure_rollback chatReady "boom" (by decide) (by decide)).1,
    (C4_chat_failure_rollback chatReady "boom" (by decide) (by decide)).2.1⟩

/-- C5 counterexample: on a concrete failed send, the transcript gains no
assistant-style failure message (it is exactly the pre-send transcript),
the optimistic user bubble has been rolled back (the sent text is not in
the transcript), and the failure is exposed in the separate inline error
field instead. -/
theorem C5_chat_failure_transcript_counterexample :
    (ChatPage.handleSendMessage
        { messages := [{ role := "user", content := "hi" },
            { role := "assistant", content := "hello" }]
          input := "list my tasks", conversationId := some 3
          loading := false, errorMsg := none }
        (.failure "boom")).1.messages =
      [{ role := "user", content := "hi" }, { role := "assistant", content := "hello" }] ∧
    ({ role := "user", content := "list my tasks" } : ChatMessage) ∉
      (ChatPage.handleSendMessage
        { messages := [{ role := "user", content := "hi" },
            { role := "assistant", content := "hello" }]
          input := "list my tasks", conversationId := some 3
          loading := false, errorMsg := none }
        (.failure "boom")).1.messages ∧
    (ChatPage.handleSendMessage
        { messages := [{ role := "user", content := "hi" },
            { role := "assistant", content := "hello" }]
          input := "list my tasks", conversationId := some 3
          loading := false, errorMsg := none }
        (.failure "boom")).1.errorMsg = some "boom" :=
  ⟨by decide, by decide, by decide⟩

/-- C5 amended: a chat request failure is surfaced through the inline error
region outside the transcript; the transcript is returned to exactly its
pre-send contents, so no assistant-style failure message is appended and
the optimistic user bubble is rolled back rather than retained. -/
theorem C5_chat_failure_presentation (s : ChatState) (msg : String)
    (hne : jsTrim s.input ≠ "") (hload : s.loading = false) :
    (ChatPage.handleSendMessage s (.failure msg)).1.messages = s.messages ∧
    (∀ m : ChatMessage,
      m ∈ (ChatPage.handleSendMessage s (.failure msg)).1.messages ↔ m ∈ s.messages) ∧
    (ChatPage.handleSendMessage s (.failure msg)).1.errorMsg = some msg := by
  have hg : ¬ (jsTrim s.input = "" ∨ s.loading = true) := by
    push_neg
    exact ⟨hne, by rw [hload]; simp⟩
  unfold ChatPage.handleSendMessage
  rw [if_neg hg]
  refine ⟨by simp [List.dropLast_concat], ?_, by simp⟩
  intro m
  simp [List.dropLast_concat]

/-- C5 witness: the amended behavior on the concrete ready state. -/
theorem C5_chat_failure_presentation_witness :
    (ChatPage.handleSendMessage chatReady (.failure "oops")).1.messages = [] ∧
    (ChatPage.handleSendMessage chatReady (.failure "oops")).1.errorMsg = some "oops" :=
  ⟨(C5_chat_failure_presentation chatReady "oops" (by decide) (by decide)).1,
    (C5_chat_failure_presentation chatReady "oops" (by decide) (by decide)).2.2⟩

end Todo
